import Mathlib

/-!
Verification of the ConsultEase faculty-desk firmware core: the offline MQTT
delivery queue with retry/eviction, the reliable publish wrapper, the
BLE presence detector with grace period, the adaptive scan-mode controller,
the button response handlers and the consultation-request queue.

Shallow embedding conventions: Arduino `millis()` timestamps are passed in as
explicit `Nat` arguments; the MQTT transport is modelled by boolean oracles
(connection flags and per-attempt publish results); side effects (presence
status publishes) are returned as explicit event lists.  Display rendering,
serial logging and LED control are omitted: they never influence the control
flow or data modelled here.
-/

/-! Configuration constants, from faculty_desk_unit/config.h. -/

def BLE_GRACE_PERIOD_MS : Nat := 60000

def BLE_RECONNECT_MAX_ATTEMPTS : Nat := 12

def BLE_SIGNAL_STRENGTH_THRESHOLD : Int := -80

def PRESENCE_CONFIRM_TIME : Nat := 6000

def FACULTY_ID : Nat := 1

def FACULTY_NAME : String := "Cris Angelo Salonga"

def MAX_CONSULTATION_QUEUE_SIZE : Nat := 10

/-! Offline message queue (part_006) and reliable queue (faculty_desk_unit_FIXED.ino).
Both firmware variants use the same record layout (the FIXED variant adds a
needs_ack flag that never influences queue behaviour, so it is omitted). -/

/-- Record SimpleMessage of part_006 (struct ReliableMessage in the FIXED
variant): one queued outbound MQTT message. -/
structure SimpleMessage where
  topic : String
  payload : String
  timestamp : Nat
  retry_count : Nat
  is_response : Bool
deriving DecidableEq, Repr

/-- Result of one drain step: the source returns a bool and mutates the global
queue; the messages on which a publish was attempted are recorded explicitly
(zero or one per step). -/
structure DrainResult where
  success : Bool
  queue : List SimpleMessage
  attempted : List SimpleMessage
deriving DecidableEq, Repr

/-- Function queueMessage of part_006: capacity-10 FIFO; when full, shift the
array left (dropping the oldest, keeping old indices 1..9) and append the new
message with retry_count 0. -/
def queueMessage (q : List SimpleMessage) (topic payload : String)
    (isResponse : Bool) (now : Nat) : List SimpleMessage :=
  let q' := if q.length ≥ 10 then (q.drop 1).take 9 else q
  q' ++ [⟨topic, payload, now, 0, isResponse⟩]

/-- Function queueMessageReliable of faculty_desk_unit_FIXED.ino: identical to
queueMessage but with capacity 3 (old indices 1..2 are kept when full). -/
def queueMessageReliable (q : List SimpleMessage) (topic payload : String)
    (isResponse : Bool) (now : Nat) : List SimpleMessage :=
  let q' := if q.length ≥ 3 then (q.drop 1).take 2 else q
  q' ++ [⟨topic, payload, now, 0, isResponse⟩]

/-- Function processQueuedMessages of part_006: with MQTT connected and a
nonempty queue, publish the head; on success pop it; on failure increment its
retry_count and drop it once retry_count exceeds 3.  mqttOk models
isMqttReallyConnected(), pubOk the result of mqttClient.publish. -/
def processQueuedMessages (mqttOk pubOk : Bool) (q : List SimpleMessage) :
    DrainResult :=
  match q with
  | [] => ⟨false, [], []⟩
  | m :: rest =>
    if mqttOk = false then ⟨false, m :: rest, []⟩
    else if pubOk then ⟨true, rest, [m]⟩
    else
      let m' := { m with retry_count := m.retry_count + 1 }
      if m'.retry_count > 3 then ⟨false, rest, [m]⟩
      else ⟨false, m' :: rest, [m]⟩

/-- Function processQueuedMessagesReliable of faculty_desk_unit_FIXED.ino:
like processQueuedMessages except a failed head is dropped as soon as its
incremented retry_count reaches 3 (the source comments this as the fixed
retry counting).  The QoS choice affects only the transport call, not the
queue, and is not modelled. -/
def processQueuedMessagesReliable (mqttOk pubOk : Bool)
    (q : List SimpleMessage) : DrainResult :=
  match q with
  | [] => ⟨false, [], []⟩
  | m :: rest =>
    if mqttOk = false then ⟨false, m :: rest, []⟩
    else if pubOk then ⟨true, rest, [m]⟩
    else
      let m' := { m with retry_count := m.retry_count + 1 }
      if m'.retry_count ≥ 3 then ⟨false, rest, [m]⟩
      else ⟨false, m' :: rest, [m]⟩

/-- Loop body of updateOfflineQueue (part_006): up to maxProcessPerCycle
drain steps, stopping at the first failed step.  The i-th publish attempt of
the tick succeeds iff pubOk i.  Returns the final queue and the concatenation
of all attempted messages. -/
def drainLoop (mqttOk : Bool) (pubOk : Nat → Bool) :
    Nat → Nat → List SimpleMessage → List SimpleMessage × List SimpleMessage
  | 0, _, q => (q, [])
  | k + 1, i, q =>
    let r := processQueuedMessages mqttOk (pubOk i) q
    if r.success then
      let rec' := drainLoop mqttOk pubOk k (i + 1) r.queue
      (rec'.1, r.attempted ++ rec'.2)
    else (r.queue, r.attempted)

/-- Function updateOfflineQueue of part_006: systemOnline is wifi AND MQTT
connectivity; when online and the queue is nonempty, run up to
min 3 queueCount drain steps, stopping at the first failure. -/
def updateOfflineQueue (wifiConnected mqttOk : Bool) (pubOk : Nat → Bool)
    (q : List SimpleMessage) : List SimpleMessage × List SimpleMessage :=
  let systemOnline := wifiConnected && mqttOk
  if systemOnline && decide (0 < q.length) then
    drainLoop mqttOk pubOk (min 3 q.length) 0 q
  else (q, [])

/-- Function updateReliableQueue of faculty_desk_unit_FIXED.ino: when online,
run exactly one reliable drain step. -/
def updateReliableQueue (wifiConnected mqttConnected : Bool) (pubOk : Bool)
    (q : List SimpleMessage) : List SimpleMessage × List SimpleMessage :=
  let systemOnline := wifiConnected && mqttConnected
  if systemOnline then
    let r := processQueuedMessagesReliable mqttConnected pubOk q
    (r.queue, r.attempted)
  else (q, [])

/-- Outcome of publishReliable: the source returns one bool (true also when
the message was merely queued, because queueMessageReliable returns true);
the number of direct send attempts and whether the message was enqueued are
recorded explicitly. -/
structure PublishOutcome where
  returnedOk : Bool
  directAttempts : Nat
  enqueued : Bool
  queue : List SimpleMessage
deriving DecidableEq, Repr

/-- Function publishReliable of faculty_desk_unit_FIXED.ino: when connected,
try the direct send up to twice (attemptOk n is the result of the n-th
attempt); on the first success return true; if both fail, or when
disconnected, hand the message to queueMessageReliable. -/
def publishReliable (connected : Bool) (attemptOk : Nat → Bool)
    (topic payload : String) (isResponse : Bool) (now : Nat)
    (q : List SimpleMessage) : PublishOutcome :=
  if connected then
    if attemptOk 1 then ⟨true, 1, false, q⟩
    else if attemptOk 2 then ⟨true, 2, false, q⟩
    else ⟨true, 2, true, queueMessageReliable q topic payload isResponse now⟩
  else ⟨true, 0, true, queueMessageReliable q topic payload isResponse now⟩

/-- Enqueue request for the offline queue, used to state multi-step
enqueue properties of queueMessage. -/
structure OutboundRequest where
  topic : String
  payload : String
  isResponse : Bool
  now : Nat
deriving DecidableEq, Repr

/-- Queue entry that queueMessage creates for a request. -/
def mkQueued (r : OutboundRequest) : SimpleMessage :=
  ⟨r.topic, r.payload, r.now, 0, r.isResponse⟩

/-- Fold of queueMessage over a list of enqueue requests. -/
def enqueueAll (q : List SimpleMessage) (rs : List OutboundRequest) :
    List SimpleMessage :=
  rs.foldl (fun q r => queueMessage q r.topic r.payload r.isResponse r.now) q

/-- Iterated part_006 drain step with MQTT connected and every publish
failing, used to observe retry exhaustion of a permanently failing head. -/
def failDrain : Nat → List SimpleMessage → List SimpleMessage
  | 0, q => q
  | k + 1, q => failDrain k (processQueuedMessages true false q).queue

/-- Iterated FIXED-variant drain step with MQTT connected and every publish
failing. -/
def failDrainReliable : Nat → List SimpleMessage → List SimpleMessage
  | 0, q => q
  | k + 1, q => failDrainReliable k (processQueuedMessagesReliable true false q).queue

/-- Sample queued message used as concrete input in several theorems. -/
def mA : SimpleMessage := ⟨"topicA", "payloadA", 0, 0, true⟩

/-- Second sample queued message. -/
def mB : SimpleMessage := ⟨"topicB", "payloadB", 0, 0, false⟩

/-! Presence detector (class BooleanPresenceDetector of part_006). -/

/-- State of class BooleanPresenceDetector (part_006), field for field.
Default values are the member initialisers of the source class. -/
structure BooleanPresenceDetector where
  currentPresence : Bool := false
  lastKnownPresence : Bool := false
  lastDetectionTime : Nat := 0
  lastStateChange : Nat := 0
  gracePeriodStartTime : Nat := 0
  inGracePeriod : Bool := false
  gracePeriodAttempts : Nat := 0
  consecutiveDetections : Nat := 0
  consecutiveMisses : Nat := 0
deriving DecidableEq, Repr

/-- Constant CONFIRM_SCANS of BooleanPresenceDetector. -/
def CONFIRM_SCANS : Nat := 2

/-- Constant CONFIRM_ABSENCE_SCANS of BooleanPresenceDetector. -/
def CONFIRM_ABSENCE_SCANS : Nat := 3

namespace BooleanPresenceDetector

/-- Method updatePresenceStatus: on an actual change, set the new presence,
record the change time, reset both counters and publish one status update
(modelled as the event list carrying the new presence value). -/
def updatePresenceStatus (d : BooleanPresenceDetector) (newPresence : Bool)
    (now : Nat) : BooleanPresenceDetector × List Bool :=
  if newPresence ≠ d.currentPresence then
    ({ d with currentPresence := newPresence, lastStateChange := now,
              consecutiveDetections := 0, consecutiveMisses := 0 },
     [newPresence])
  else (d, [])

/-- Method startGracePeriod: arm the grace period at the current time and
remember the pre-grace presence. -/
def startGracePeriod (d : BooleanPresenceDetector) (now : Nat) :
    BooleanPresenceDetector :=
  { d with inGracePeriod := true, gracePeriodStartTime := now,
           gracePeriodAttempts := 0, lastKnownPresence := d.currentPresence }

/-- Method endGracePeriod: clear the grace state; when not reconnected,
confirm AWAY through updatePresenceStatus. -/
def endGracePeriod (d : BooleanPresenceDetector) (reconnected : Bool)
    (now : Nat) : BooleanPresenceDetector × List Bool :=
  let d' := { d with inGracePeriod := false, gracePeriodAttempts := 0 }
  if reconnected then (d', [])
  else updatePresenceStatus d' false now

/-- Method updateGracePeriod: count the attempt, then end the grace period
(confirming AWAY) once the grace duration has elapsed or the attempt counter
has reached BLE_RECONNECT_MAX_ATTEMPTS. -/
def updateGracePeriod (d : BooleanPresenceDetector) (now : Nat) :
    BooleanPresenceDetector × List Bool :=
  let d' := { d with gracePeriodAttempts := d.gracePeriodAttempts + 1 }
  let elapsed := now - d'.gracePeriodStartTime
  if elapsed ≥ BLE_GRACE_PERIOD_MS ∨
     d'.gracePeriodAttempts ≥ BLE_RECONNECT_MAX_ATTEMPTS then
    endGracePeriod d' false now
  else (d', [])

/-- Method checkBeacon of part_006, called once per completed scan.  A hit
first updates the detection counters, then a weak RSSI (nonzero and below the
threshold) returns early; otherwise it cancels a running grace period and may
confirm presence.  A miss updates the miss counters and may start or advance
the grace period. -/
def checkBeacon (d : BooleanPresenceDetector) (beaconFound : Bool)
    (rssi : Int) (now : Nat) : BooleanPresenceDetector × List Bool :=
  if beaconFound then
    let d₁ := { d with lastDetectionTime := now,
                       consecutiveDetections := d.consecutiveDetections + 1,
                       consecutiveMisses := 0 }
    if rssi ≠ 0 ∧ rssi < BLE_SIGNAL_STRENGTH_THRESHOLD then (d₁, [])
    else
      let p := if d₁.inGracePeriod then endGracePeriod d₁ true now else (d₁, [])
      if p.1.consecutiveDetections ≥ CONFIRM_SCANS ∧ p.1.currentPresence = false then
        let p' := updatePresenceStatus p.1 true now
        (p'.1, p.2 ++ p'.2)
      else p
  else
    let d₁ := { d with consecutiveMisses := d.consecutiveMisses + 1,
                       consecutiveDetections := 0 }
    if d₁.currentPresence = true ∧ d₁.consecutiveMisses ≥ CONFIRM_ABSENCE_SCANS then
      if d₁.inGracePeriod = false then (startGracePeriod d₁ now, [])
      else updateGracePeriod d₁ now
    else if d₁.currentPresence = false then
      ({ d₁ with inGracePeriod := false }, [])
    else (d₁, [])

/-- Method getPresence: during a grace period report the pre-grace value. -/
def getPresence (d : BooleanPresenceDetector) : Bool :=
  if d.inGracePeriod then d.lastKnownPresence else d.currentPresence

/-- Method getStatusString: the user-facing AVAILABLE or AWAY string. -/
def getStatusString (d : BooleanPresenceDetector) : String :=
  if d.inGracePeriod then
    if d.lastKnownPresence then "AVAILABLE" else "AWAY"
  else
    if d.currentPresence then "AVAILABLE" else "AWAY"

end BooleanPresenceDetector

/-- One scan reported as a miss to the presence detector (checkBeacon with
found = false; the integrated scanner path passes the default rssi 0). -/
def missStep (d : BooleanPresenceDetector) (now : Nat) :
    BooleanPresenceDetector × List Bool :=
  BooleanPresenceDetector.checkBeacon d false 0 now

/-- Run of consecutive missed scans at the given times, collecting the
published status-change events in order. -/
def runMisses (d : BooleanPresenceDetector) :
    List Nat → BooleanPresenceDetector × List Bool
  | [] => (d, [])
  | t :: ts =>
    let p := missStep d t
    let p' := runMisses p.1 ts
    (p'.1, p.2 ++ p'.2)

/-- Externally observed presence after each missed scan of a run. -/
def presenceTrace (d : BooleanPresenceDetector) : List Nat → List Bool
  | [] => []
  | t :: ts =>
    let d' := (missStep d t).1
    BooleanPresenceDetector.getPresence d' :: presenceTrace d' ts

/-! Adaptive BLE scanner (class AdaptiveBLEScanner of part_006). -/

/-- Enum ScanMode of AdaptiveBLEScanner. -/
inductive ScanMode where
  | SEARCHING
  | MONITORING
  | VERIFYING
deriving DecidableEq, Repr

/-- State of class AdaptiveBLEScanner (part_006).  The performance statistics
record is omitted: it feeds debug reporting only. -/
structure AdaptiveBLEScanner where
  currentMode : ScanMode := ScanMode.SEARCHING
  lastScanTime : Nat := 0
  modeChangeTime : Nat := 0
  consecutiveDetections : Nat := 0
  consecutiveMisses : Nat := 0
deriving DecidableEq, Repr

/-- Method updateScanMode of AdaptiveBLEScanner: the three-mode transition
rules; an executed mode change records the time and resets both counters. -/
def updateScanMode (s : AdaptiveBLEScanner) (now : Nat) : AdaptiveBLEScanner :=
  let newMode :=
    match s.currentMode with
    | ScanMode.SEARCHING =>
        if s.consecutiveDetections ≥ 2 then ScanMode.VERIFYING else s.currentMode
    | ScanMode.MONITORING =>
        if s.consecutiveMisses ≥ 2 then ScanMode.VERIFYING else s.currentMode
    | ScanMode.VERIFYING =>
        if now - s.modeChangeTime > PRESENCE_CONFIRM_TIME then
          if s.consecutiveDetections > s.consecutiveMisses then ScanMode.MONITORING
          else ScanMode.SEARCHING
        else s.currentMode
  if newMode ≠ s.currentMode then
    { s with currentMode := newMode, modeChangeTime := now,
             consecutiveDetections := 0, consecutiveMisses := 0 }
  else s

/-- Scanner plus the presence detector it drives. -/
structure ScannerSystem where
  scanner : AdaptiveBLEScanner
  detector : BooleanPresenceDetector
deriving DecidableEq, Repr

/-- Body of AdaptiveBLEScanner.update after a completed scan (part_006):
record the scan time, update the consecutive hit/miss counters, apply the
mode transition, then hand the result to checkBeacon (the integrated call
passes no RSSI, so the default 0 disables the RSSI filter). -/
def scanStep (sys : ScannerSystem) (beaconFound : Bool) (now : Nat) :
    ScannerSystem × List Bool :=
  let s₀ := { sys.scanner with lastScanTime := now }
  let s₁ :=
    if beaconFound then
      { s₀ with consecutiveDetections := s₀.consecutiveDetections + 1,
                consecutiveMisses := 0 }
    else
      { s₀ with consecutiveMisses := s₀.consecutiveMisses + 1,
                consecutiveDetections := 0 }
  let s₂ := updateScanMode s₁ now
  let p := BooleanPresenceDetector.checkBeacon sys.detector beaconFound 0 now
  (⟨s₂, p.1⟩, p.2)

/-- Freshly initialised scanner-plus-detector system (the source's global
instances before any scan). -/
def initSystem : ScannerSystem := ⟨{}, {}⟩

/-! Faculty response handlers (handleAcknowledgeButton and handleBusyButton
of part_006). -/

/-- JSON payload built by the button handlers, field for field in source
order.  The source concatenates these into a JSON string; the fields and
their values are modelled structurally. -/
structure ResponsePayload where
  faculty_id : Nat
  faculty_name : String
  response_type : String
  message_id : String
  timestamp : Nat
  faculty_present : Bool
  response_method : String
  status : String
deriving DecidableEq, Repr

/-- Function handleAcknowledgeButton of part_006: guard on a displayed
nonempty message, then on getPresence, then on a nonempty consultation id;
only then build and hand the ACKNOWLEDGE payload to publishWithQueue
(the handed-over payload is returned; none models the early returns, on
which nothing is published or enqueued). -/
def handleAcknowledgeButton (messageDisplayed : Bool) (currentMessage : String)
    (d : BooleanPresenceDetector) (g_receivedConsultationId : String)
    (now : Nat) : Option ResponsePayload :=
  if messageDisplayed = false ∨ currentMessage = "" then none
  else if BooleanPresenceDetector.getPresence d = false then none
  else if g_receivedConsultationId = "" then none
  else
    some { faculty_id := FACULTY_ID
           faculty_name := FACULTY_NAME
           response_type := "ACKNOWLEDGE"
           message_id := g_receivedConsultationId
           timestamp := now
           faculty_present := true
           response_method := "physical_button"
           status := "Professor acknowledges the request and will respond accordingly" }

/-- Function handleBusyButton of part_006: same guards as
handleAcknowledgeButton, building the BUSY payload. -/
def handleBusyButton (messageDisplayed : Bool) (currentMessage : String)
    (d : BooleanPresenceDetector) (g_receivedConsultationId : String)
    (now : Nat) : Option ResponsePayload :=
  if messageDisplayed = false ∨ currentMessage = "" then none
  else if BooleanPresenceDetector.getPresence d = false then none
  else if g_receivedConsultationId = "" then none
  else
    some { faculty_id := FACULTY_ID
           faculty_name := FACULTY_NAME
           response_type := "BUSY"
           message_id := g_receivedConsultationId
           timestamp := now
           faculty_present := true
           response_method := "physical_button"
           status := "Professor is currently busy and cannot cater to this request" }

/-! Consultation message queue and the consultation-request branch of
onMqttMessage (part_006). -/

/-- Record ConsultationMessage of part_006.  The display-only parsed fields
studentName, studentId and actualMessage are omitted: they are produced by
parseConsultationMessage purely for rendering and never influence queue or
handler control flow. -/
structure ConsultationMessage where
  content : String := ""
  consultationId : String := ""
  timestamp : Nat := 0
  isValid : Bool := false
deriving DecidableEq, Repr

/-- Global consultation-queue state of part_006: the fixed 10-slot array with
head, tail and size indices, plus the display globals read and written by
the message path. -/
structure ConsultationState where
  queue : List ConsultationMessage
  consultationQueueHead : Nat
  consultationQueueTail : Nat
  consultationQueueSize : Nat
  currentMessageDisplayed : Bool
  currentMessage : String
  messageDisplayed : Bool
  g_receivedConsultationId : String
deriving DecidableEq, Repr

/-- Function addConsultationToQueue of part_006: when full, advance the head
(dropping the oldest); then write the new entry at the tail with isValid set
and advance tail and size. -/
def addConsultationToQueue (st : ConsultationState)
    (messageContent consultationId : String) (now : Nat) : ConsultationState :=
  let st' :=
    if st.consultationQueueSize ≥ MAX_CONSULTATION_QUEUE_SIZE then
      { st with consultationQueueHead :=
                  (st.consultationQueueHead + 1) % MAX_CONSULTATION_QUEUE_SIZE,
                consultationQueueSize := st.consultationQueueSize - 1 }
    else st
  let entry : ConsultationMessage :=
    { content := messageContent, consultationId := consultationId,
      timestamp := now, isValid := true }
  { st' with queue := st'.queue.set st'.consultationQueueTail entry,
             consultationQueueTail :=
               (st'.consultationQueueTail + 1) % MAX_CONSULTATION_QUEUE_SIZE,
             consultationQueueSize := st'.consultationQueueSize + 1 }

/-- Function getNextConsultationFromQueue of part_006: pop the head slot,
marking it invalid. -/
def getNextConsultationFromQueue (st : ConsultationState) :
    ConsultationMessage × ConsultationState :=
  if st.consultationQueueSize = 0 then ({ isValid := false }, st)
  else
    let nextMessage := st.queue.getD st.consultationQueueHead {}
    (nextMessage,
     { st with queue := st.queue.set st.consultationQueueHead
                          { nextMessage with isValid := false },
               consultationQueueHead :=
                 (st.consultationQueueHead + 1) % MAX_CONSULTATION_QUEUE_SIZE,
               consultationQueueSize := st.consultationQueueSize - 1 })

/-- Function displayQueuedConsultation of part_006, restricted to its state
effect: publish the message into the display globals. -/
def displayQueuedConsultation (st : ConsultationState)
    (msg : ConsultationMessage) : ConsultationState :=
  { st with currentMessage := msg.content,
            g_receivedConsultationId := msg.consultationId,
            messageDisplayed := true,
            currentMessageDisplayed := true }

/-- Function processNextQueuedConsultation of part_006 with explicit fuel:
the source recurses past invalidated entries, and each recursive call
strictly shrinks the queue size, so size + 1 fuel always suffices. -/
def processNextQueuedConsultationFuel :
    Nat → ConsultationState → ConsultationState
  | 0, st => st
  | fuel + 1, st =>
    if st.consultationQueueSize = 0 then
      { st with currentMessageDisplayed := false, g_receivedConsultationId := "" }
    else
      let p := getNextConsultationFromQueue st
      if p.1.isValid then displayQueuedConsultation p.2 p.1
      else processNextQueuedConsultationFuel fuel p.2

/-- Function processNextQueuedConsultation of part_006. -/
def processNextQueuedConsultation (st : ConsultationState) : ConsultationState :=
  processNextQueuedConsultationFuel (st.consultationQueueSize + 1) st

/-- Consultation-request branch of onMqttMessage (part_006): a payload with
consultation_id and message is ignored when the id matches the currently
displayed consultation or any valid queue entry; otherwise it is added to
the queue and, when nothing is displayed, shown immediately. -/
def onMqttConsultationRequest (st : ConsultationState)
    (consultation_id message : String) (now : Nat) : ConsultationState :=
  let isDuplicate :=
    (st.currentMessageDisplayed && (st.g_receivedConsultationId == consultation_id)) ||
    st.queue.any (fun e => e.isValid && (e.consultationId == consultation_id))
  if isDuplicate then st
  else
    let st' := addConsultationToQueue st message consultation_id now
    if st'.currentMessageDisplayed = false then processNextQueuedConsultation st'
    else st'

/-- Sample list of eleven enqueue requests, the K + 1 enqueues of the
capacity-10 offline queue scenario. -/
def rsW : List OutboundRequest :=
  [⟨"t1", "p1", false, 1⟩, ⟨"t2", "p2", true, 2⟩, ⟨"t3", "p3", false, 3⟩,
   ⟨"t4", "p4", true, 4⟩, ⟨"t5", "p5", false, 5⟩, ⟨"t6", "p6", true, 6⟩,
   ⟨"t7", "p7", false, 7⟩, ⟨"t8", "p8", true, 8⟩, ⟨"t9", "p9", false, 9⟩,
   ⟨"t10", "p10", true, 10⟩, ⟨"t11", "p11", false, 11⟩]

/-! Theorems.  Helper lemmas come first, then one theorem per claim (with
counterexamples and witnesses where the claim status requires them). -/

/-- Helper: one enqueue below capacity simply appends. -/
theorem queueMessage_of_lt (q : List SimpleMessage) (t p : String) (i : Bool)
    (n : Nat) (h : q.length < 10) :
    queueMessage q t p i n = q ++ [⟨t, p, n, 0, i⟩] := by
  simp [queueMessage, Nat.not_le.mpr h]

/-- Helper: one enqueue at capacity drops the head and appends. -/
theorem queueMessage_of_full (q : List SimpleMessage) (t p : String) (i : Bool)
    (n : Nat) (h : q.length = 10) :
    queueMessage q t p i n = q.drop 1 ++ [⟨t, p, n, 0, i⟩] := by
  have hlen : (q.drop 1).length ≤ 9 := by simp [h]
  simp [queueMessage, h, List.take_of_length_le hlen]

/-- Helper: one enqueue never pushes the length above capacity. -/
theorem queueMessage_length_le (q : List SimpleMessage) (t p : String)
    (i : Bool) (n : Nat) (h : q.length ≤ 10) :
    (queueMessage q t p i n).length ≤ 10 := by
  by_cases hfull : q.length ≥ 10
  · simp [queueMessage, hfull]
  · simp [queueMessage, hfull]
    omega

/-- Helper: the queue length stays at most capacity along any sequence of
enqueues. -/
theorem enqueueAll_length_le :
    ∀ (rs : List OutboundRequest) (q : List SimpleMessage),
      q.length ≤ 10 → (enqueueAll q rs).length ≤ 10 := by
  intro rs
  induction rs with
  | nil => intro q h; simpa [enqueueAll] using h
  | cons r rs ih =>
    intro q h
    have : enqueueAll q (r :: rs) =
        enqueueAll (queueMessage q r.topic r.payload r.isResponse r.now) rs := rfl
    rw [this]
    exact ih _ (queueMessage_length_le q _ _ _ _ h)

/-- Helper: eleven enqueues starting within capacity evict exactly the
overall-oldest element. -/
theorem enqueueAll_eleven :
    ∀ (rs : List OutboundRequest) (q : List SimpleMessage),
      q.length + rs.length = 11 → q.length ≤ 10 →
      enqueueAll q rs = (q ++ rs.map mkQueued).drop 1 := by
  intro rs
  induction rs with
  | nil =>
    intro q h hle
    simp only [List.length_nil] at h
    omega
  | cons r rs ih =>
    intro q h hle
    simp only [List.length_cons] at h
    have hstep : enqueueAll q (r :: rs) =
        enqueueAll (queueMessage q r.topic r.payload r.isResponse r.now) rs := rfl
    by_cases hfull : q.length = 10
    · have hrs : rs = [] := by
        have : rs.length = 0 := by omega
        exact List.length_eq_zero.mp this
      subst hrs
      rw [hstep]
      simp only [enqueueAll, List.foldl_nil]
      rw [queueMessage_of_full q _ _ _ _ hfull]
      rw [List.drop_append_eq_append_drop]
      simp [mkQueued, hfull]
    · have hlt : q.length < 10 := by omega
      rw [hstep, queueMessage_of_lt q _ _ _ _ hlt]
      have := ih (q ++ [⟨r.topic, r.payload, r.now, 0, r.isResponse⟩])
        (by simp only [List.length_append, List.length_cons, List.length_nil]; omega)
        (by simp only [List.length_append, List.length_cons, List.length_nil]; omega)
      rw [this]
      simp [mkQueued, List.append_assoc]

/-- Claim C3: enqueueing K + 1 = 11 messages into the capacity-10 offline
queue leaves exactly 10, the oldest is evicted, the retained messages are the
newest 10 in enqueue order, and the size never exceeds 10. -/
theorem C3_queue_bound_evicts_oldest (rs : List OutboundRequest)
    (h : rs.length = 11) :
    enqueueAll [] rs = (rs.map mkQueued).drop 1 ∧
    (enqueueAll [] rs).length = 10 ∧
    ∀ pre : List OutboundRequest, (enqueueAll [] pre).length ≤ 10 := by
  have h1 : enqueueAll [] rs = (([] : List SimpleMessage) ++ rs.map mkQueued).drop 1 :=
    enqueueAll_eleven rs [] (by simpa using h) (by simp)
  refine ⟨by simpa using h1, ?_, fun pre => enqueueAll_length_le pre [] (by simp)⟩
  rw [h1]
  simp [h]

/-- Witness for C3 at a concrete list of eleven requests. -/
theorem C3_queue_bound_witness :
    rsW.length = 11 ∧
    (enqueueAll [] rsW = (rsW.map mkQueued).drop 1 ∧
     (enqueueAll [] rsW).length = 10 ∧
     ∀ pre : List OutboundRequest, (enqueueAll [] pre).length ≤ 10) :=
  ⟨by decide, C3_queue_bound_evicts_oldest rsW (by decide)⟩

/-- Claim C1: part_006 processQueuedMessages contradicts the stated
max_retry_count-3 bound (and its own log text): a head failing every attempt
still blocks the queue after 3 failed attempts, with retry_count 3, and is
removed only by the 4th failure; the FIXED variant
processQueuedMessagesReliable removes it after exactly 3 failures. -/
theorem C1_retry_exhaustion_code_bug :
    failDrain 3 [mA, mB] = [{ mA with retry_count := 3 }, mB] ∧
    failDrain 3 [mA, mB] ≠ [mB] ∧
    failDrain 4 [mA, mB] = [mB] ∧
    failDrainReliable 2 [mA, mB] = [{ mA with retry_count := 2 }, mB] ∧
    failDrainReliable 3 [mA, mB] = [mB] := by
  decide

/-- Counterexample to claim C2 as stated: with connectivity up, two queued
messages and a working transport, part_006 updateOfflineQueue attempts two
deliveries in a single tick, not at most one. -/
theorem C2_counterexample_three_per_tick :
    (updateOfflineQueue true true (fun _ => true) [mA, mB]).2 = [mA, mB] ∧
    ¬ (updateOfflineQueue true true (fun _ => true) [mA, mB]).2.length ≤ 1 := by
  decide

/-- Helper: the drain loop attempts at most its step budget, and the
attempted messages are exactly an initial segment of the queue (head first,
oldest first). -/
theorem drainLoop_spec (mqttOk : Bool) (pubOk : Nat → Bool) :
    ∀ (k i : Nat) (q : List SimpleMessage),
      (drainLoop mqttOk pubOk k i q).2.length ≤ k ∧
      (drainLoop mqttOk pubOk k i q).2 =
        q.take (drainLoop mqttOk pubOk k i q).2.length := by
  cases mqttOk with
  | false =>
    intro k i q
    cases k with
    | zero => simp [drainLoop]
    | succ k =>
      cases q with
      | nil => simp [drainLoop, processQueuedMessages]
      | cons m rest => simp [drainLoop, processQueuedMessages]
  | true =>
    intro k
    induction k with
    | zero => intro i q; simp [drainLoop]
    | succ k ih =>
      intro i q
      cases q with
      | nil => simp [drainLoop, processQueuedMessages]
      | cons m rest =>
        by_cases hp : pubOk i = true
        · obtain ⟨ih1, ih2⟩ := ih (i + 1) rest
          simp only [drainLoop, processQueuedMessages, hp, Bool.true_eq_false,
            if_false, if_true]
          constructor
          · simpa using Nat.succ_le_succ ih1
          · simpa [List.take_succ_cons] using ih2
        · simp only [Bool.not_eq_true] at hp
          by_cases hr : m.retry_count + 1 > 3
          · simp [drainLoop, processQueuedMessages, hp, hr]
          · simp [drainLoop, processQueuedMessages, hp, hr]

/-- Claim C2 (amended): with connectivity established, the part_006 drain
step attempts delivery head-first — the attempted messages form an initial
segment of the queue, oldest first — of at most three messages per tick,
stopping at the first failure; the FIXED variant attempts at most one; with
connectivity absent, neither makes any attempt. -/
theorem C2_drain_head_first_bounded :
    (∀ (wifi mqtt : Bool) (pubOk : Nat → Bool) (q : List SimpleMessage),
      (updateOfflineQueue wifi mqtt pubOk q).2.length ≤ 3 ∧
      (updateOfflineQueue wifi mqtt pubOk q).2 =
        q.take (updateOfflineQueue wifi mqtt pubOk q).2.length ∧
      ((wifi && mqtt) = false → updateOfflineQueue wifi mqtt pubOk q = (q, []))) ∧
    (∀ (wifi mqtt pubOk : Bool) (q : List SimpleMessage),
      (updateReliableQueue wifi mqtt pubOk q).2.length ≤ 1 ∧
      (updateReliableQueue wifi mqtt pubOk q).2 =
        q.take (updateReliableQueue wifi mqtt pubOk q).2.length ∧
      ((wifi && mqtt) = false → updateReliableQueue wifi mqtt pubOk q = (q, []))) := by
  constructor
  · intro wifi mqtt pubOk q
    cases wifi with
    | false => simp [updateOfflineQueue]
    | true =>
      cases mqtt with
      | false => simp [updateOfflineQueue]
      | true =>
        cases q with
        | nil => simp [updateOfflineQueue]
        | cons m rest =>
          obtain ⟨h1, h2⟩ :=
            drainLoop_spec true pubOk (min 3 (m :: rest).length) 0 (m :: rest)
          refine ⟨?_, ?_, by simp⟩
          · simpa [updateOfflineQueue] using h1.trans (Nat.min_le_left _ _)
          · simpa [updateOfflineQueue] using h2
  · intro wifi mqtt pubOk q
    cases wifi with
    | false => simp [updateReliableQueue]
    | true =>
      cases mqtt with
      | false => simp [updateReliableQueue]
      | true =>
        cases q with
        | nil => simp [updateReliableQueue, processQueuedMessagesReliable]
        | cons m rest =>
          cases pubOk with
          | true => simp [updateReliableQueue, processQueuedMessagesReliable]
          | false =>
            by_cases hr : m.retry_count + 1 ≥ 3
            · simp [updateReliableQueue, processQueuedMessagesReliable, hr]
            · simp [updateReliableQueue, processQueuedMessagesReliable, hr]

/-- Witness for C2 (amended) at concrete inputs: offline means no attempts,
and a two-element queue with a failing transport yields exactly one
head-first attempt. -/
theorem C2_drain_witness :
    ((false && true) = false → updateOfflineQueue false true (fun _ => false) [mA, mB] = ([mA, mB], [])) ∧
    (updateOfflineQueue true true (fun _ => false) [mA, mB]).2 =
      [mA, mB].take (updateOfflineQueue true true (fun _ => false) [mA, mB]).2.length :=
  ⟨(C2_drain_head_first_bounded.1 false true (fun _ => false) [mA, mB]).2.2,
   (C2_drain_head_first_bounded.1 true true (fun _ => false) [mA, mB]).2.1⟩

/-- Claim C5: publishReliable makes at most two direct attempts; when
disconnected it makes none and enqueues; when connected it returns success
as soon as one of the two attempts succeeds (leaving the queue untouched);
and it hands the message to the reliable enqueue exactly when it is
disconnected or both attempts fail. -/
theorem C5_publish_reliable_attempts (connected : Bool) (attemptOk : Nat → Bool)
    (topic payload : String) (isResponse : Bool) (now : Nat)
    (q : List SimpleMessage) :
    (publishReliable connected attemptOk topic payload isResponse now q).directAttempts ≤ 2 ∧
    (connected = false →
      (publishReliable connected attemptOk topic payload isResponse now q).directAttempts = 0 ∧
      (publishReliable connected attemptOk topic payload isResponse now q).enqueued = true) ∧
    (connected = true → (attemptOk 1 = true ∨ attemptOk 2 = true) →
      (publishReliable connected attemptOk topic payload isResponse now q).returnedOk = true ∧
      (publishReliable connected attemptOk topic payload isResponse now q).enqueued = false ∧
      (publishReliable connected attemptOk topic payload isResponse now q).queue = q) ∧
    ((publishReliable connected attemptOk topic payload isResponse now q).enqueued = true ↔
      (connected = false ∨ (attemptOk 1 = false ∧ attemptOk 2 = false))) ∧
    ((publishReliable connected attemptOk topic payload isResponse now q).enqueued = true →
      (publishReliable connected attemptOk topic payload isResponse now q).queue =
        queueMessageReliable q topic payload isResponse now) := by
  cases connected <;> cases h1 : attemptOk 1 <;> cases h2 : attemptOk 2 <;>
    simp [publishReliable, h1, h2]

/-- Witness for C5 at concrete inputs: connected with both attempts failing
enqueues into the reliable queue. -/
theorem C5_publish_reliable_witness :
    (publishReliable true (fun _ => false) "t" "p" true 7 []).enqueued = true ∧
    (publishReliable true (fun _ => false) "t" "p" true 7 []).queue =
      queueMessageReliable [] "t" "p" true 7 :=
  ⟨by decide,
   (C5_publish_reliable_attempts true (fun _ => false) "t" "p" true 7 []).2.2.2.2
     (by decide)⟩

/-- Helper: a miss while present with too few accumulated misses only counts
the miss. -/
theorem missStep_count (d : BooleanPresenceDetector) (t : Nat)
    (h1 : d.currentPresence = true) (h2 : d.consecutiveMisses + 1 < 3) :
    missStep d t =
      ({ d with consecutiveMisses := d.consecutiveMisses + 1,
                consecutiveDetections := 0 }, []) := by
  have h2' : ¬ d.consecutiveMisses + 1 ≥ CONFIRM_ABSENCE_SCANS := by
    simp only [CONFIRM_ABSENCE_SCANS]; omega
  simp [missStep, BooleanPresenceDetector.checkBeacon, h1, h2']

/-- Helper: the third consecutive miss while present without a grace period
starts one. -/
theorem missStep_start (d : BooleanPresenceDetector) (t : Nat)
    (h1 : d.currentPresence = true) (h2 : d.inGracePeriod = false)
    (h3 : d.consecutiveMisses + 1 ≥ 3) :
    missStep d t =
      (BooleanPresenceDetector.startGracePeriod
        { d with consecutiveMisses := d.consecutiveMisses + 1,
                 consecutiveDetections := 0 } t, []) := by
  have h3' : d.consecutiveMisses + 1 ≥ CONFIRM_ABSENCE_SCANS := by
    simp only [CONFIRM_ABSENCE_SCANS]; omega
  simp [missStep, BooleanPresenceDetector.checkBeacon, h1, h2, h3']

/-- Helper: a further miss during a grace period advances it. -/
theorem missStep_grace (d : BooleanPresenceDetector) (t : Nat)
    (h1 : d.currentPresence = true) (h2 : d.inGracePeriod = true)
    (h3 : d.consecutiveMisses + 1 ≥ 3) :
    missStep d t =
      BooleanPresenceDetector.updateGracePeriod
        { d with consecutiveMisses := d.consecutiveMisses + 1,
                 consecutiveDetections := 0 } t := by
  have h3' : d.consecutiveMisses + 1 ≥ CONFIRM_ABSENCE_SCANS := by
    simp only [CONFIRM_ABSENCE_SCANS]; omega
  simp [missStep, BooleanPresenceDetector.checkBeacon, h1, h2, h3']

/-- Helper: a miss while already away only counts the miss and clears the
grace flag. -/
theorem missStep_away (d : BooleanPresenceDetector) (t : Nat)
    (h1 : d.currentPresence = false) :
    missStep d t =
      ({ d with consecutiveMisses := d.consecutiveMisses + 1,
                consecutiveDetections := 0, inGracePeriod := false }, []) := by
  simp [missStep, BooleanPresenceDetector.checkBeacon, h1]

/-- Helper: a grace-period step whose end condition holds (duration elapsed
or attempt cap reached) confirms AWAY and publishes exactly one status
change. -/
theorem updateGracePeriod_end (d : BooleanPresenceDetector) (t : Nat)
    (h1 : d.currentPresence = true)
    (hend : t - d.gracePeriodStartTime ≥ BLE_GRACE_PERIOD_MS ∨
            d.gracePeriodAttempts + 1 ≥ BLE_RECONNECT_MAX_ATTEMPTS) :
    BooleanPresenceDetector.updateGracePeriod d t =
      ({ d with gracePeriodAttempts := 0, inGracePeriod := false,
                currentPresence := false, lastStateChange := t,
                consecutiveDetections := 0, consecutiveMisses := 0 },
       [false]) := by
  simp [BooleanPresenceDetector.updateGracePeriod,
        BooleanPresenceDetector.endGracePeriod,
        BooleanPresenceDetector.updatePresenceStatus, hend, h1]

/-- Helper: a grace-period step whose end condition fails only counts the
attempt. -/
theorem updateGracePeriod_cont (d : BooleanPresenceDetector) (t : Nat)
    (hend : ¬ (t - d.gracePeriodStartTime ≥ BLE_GRACE_PERIOD_MS ∨
               d.gracePeriodAttempts + 1 ≥ BLE_RECONNECT_MAX_ATTEMPTS)) :
    BooleanPresenceDetector.updateGracePeriod d t =
      ({ d with gracePeriodAttempts := d.gracePeriodAttempts + 1 }, []) := by
  simp only [not_or] at hend
  simp [BooleanPresenceDetector.updateGracePeriod, hend.1, hend.2]

/-- Helper: once AWAY with no grace period, further misses keep the detector
AWAY, publish nothing and report false throughout. -/
theorem awayRun :
    ∀ (ts : List Nat) (d : BooleanPresenceDetector),
      d.currentPresence = false → d.inGracePeriod = false →
      (runMisses d ts).1.currentPresence = false ∧
      (runMisses d ts).1.inGracePeriod = false ∧
      (runMisses d ts).2 = [] ∧
      presenceTrace d ts = List.replicate ts.length false := by
  intro ts
  induction ts with
  | nil => intro d h1 h2; simp [runMisses, presenceTrace, h1, h2]
  | cons t ts ih =>
    intro d h1 h2
    have hstep := missStep_away d t h1
    have ih' := ih
      { d with consecutiveMisses := d.consecutiveMisses + 1,
               consecutiveDetections := 0, inGracePeriod := false }
      (by simpa using h1) rfl
    obtain ⟨ha, hb, hc, hd⟩ := ih'
    refine ⟨?_, ?_, ?_, ?_⟩
    · simpa [runMisses, hstep] using ha
    · simpa [runMisses, hstep] using hb
    · simp [runMisses, hstep, hc]
    · simp only [presenceTrace, hstep, List.length_cons]
      rw [List.replicate_succ, hd]
      simp [BooleanPresenceDetector.getPresence, h1]

/-- Helper: from inside a grace period entered from PRESENT, a run of misses
that eventually reaches the grace duration confirms AWAY, publishes exactly
one status change, and the reported presence stays true up to the expiry
step and false from it on. -/
theorem graceRun :
    ∀ (ts : List Nat) (d : BooleanPresenceDetector),
      d.currentPresence = true → d.inGracePeriod = true →
      d.lastKnownPresence = true → 2 ≤ d.consecutiveMisses →
      (∃ t ∈ ts, d.gracePeriodStartTime + BLE_GRACE_PERIOD_MS ≤ t) →
      (runMisses d ts).1.currentPresence = false ∧
      (runMisses d ts).1.inGracePeriod = false ∧
      (runMisses d ts).2 = [false] ∧
      ∃ j, j < ts.length ∧
        presenceTrace d ts =
          List.replicate j true ++ List.replicate (ts.length - j) false := by
  intro ts
  induction ts with
  | nil =>
    intro d _ _ _ _ hex
    simp at hex
  | cons t ts ih =>
    intro d h1 h2 h3 h4 hex
    have hstep := missStep_grace d t h1 h2 (by omega)
    set d₁ : BooleanPresenceDetector :=
      { d with consecutiveMisses := d.consecutiveMisses + 1,
               consecutiveDetections := 0 } with hd₁
    by_cases hend : t - d.gracePeriodStartTime ≥ BLE_GRACE_PERIOD_MS ∨
        d.gracePeriodAttempts + 1 ≥ BLE_RECONNECT_MAX_ATTEMPTS
    · have hgp := updateGracePeriod_end d₁ t (by simpa [hd₁] using h1)
        (by simpa [hd₁] using hend)
      set d₂ : BooleanPresenceDetector :=
        { d₁ with gracePeriodAttempts := 0, inGracePeriod := false,
                  currentPresence := false, lastStateChange := t,
                  consecutiveDetections := 0, consecutiveMisses := 0 } with hd₂
      obtain ⟨ha, hb, hc, hd⟩ := awayRun ts d₂ rfl rfl
      refine ⟨?_, ?_, ?_, ⟨0, by simp, ?_⟩⟩
      · simpa [runMisses, hstep, hgp] using ha
      · simpa [runMisses, hstep, hgp] using hb
      · simp [runMisses, hstep, hgp, hc]
      · simp [presenceTrace, hstep, hgp, hd,
              BooleanPresenceDetector.getPresence, List.replicate_succ]
    · have hgp := updateGracePeriod_cont d₁ t (by simpa [hd₁] using hend)
      set d₂ : BooleanPresenceDetector :=
        { d₁ with gracePeriodAttempts := d₁.gracePeriodAttempts + 1 } with hd₂
      have hex' : ∃ t' ∈ ts, d₂.gracePeriodStartTime + BLE_GRACE_PERIOD_MS ≤ t' := by
        obtain ⟨t', ht', hge⟩ := hex
        rcases List.mem_cons.mp ht' with heq | hmem
        · exfalso
          apply hend
          left
          omega
        · exact ⟨t', hmem, by simpa [hd₂, hd₁] using hge⟩
      have ih' := ih d₂ (by simp [hd₂, hd₁, h1]) (by simp [hd₂, hd₁, h2])
        (by simp [hd₂, hd₁, h3]) (by simp [hd₂, hd₁] <;> omega) hex'
      obtain ⟨ha, hb, hc, j, hj, htr⟩ := ih'
      refine ⟨?_, ?_, ?_, ⟨j + 1, by simp only [List.length_cons]; omega, ?_⟩⟩
      · simpa [runMisses, hstep, hgp] using ha
      · simpa [runMisses, hstep, hgp] using hb
      · simp [runMisses, hstep, hgp, hc]
      · have hpres : BooleanPresenceDetector.getPresence d₂ = true := by
          simp [BooleanPresenceDetector.getPresence, hd₂, hd₁, h2, h3]
        simp only [presenceTrace, hstep, hgp, htr, hpres, List.length_cons]
        have : ts.length + 1 - (j + 1) = ts.length - j := by omega
        simp [this, List.replicate_succ]

/-- Claim C4: from CONFIRMED_PRESENT, three consecutive misses followed by
further misses with no hit, one of which falls beyond the grace duration,
make getPresence flip from true to false exactly once — the reported trace
is trues followed by falses with a single edge — and exactly one status
publish fires, at the step ending the grace period. -/
theorem C4_grace_expiry_single_transition (d : BooleanPresenceDetector)
    (t1 t2 t3 : Nat) (rest : List Nat)
    (h1 : d.currentPresence = true) (h2 : d.inGracePeriod = false)
    (h3 : d.consecutiveMisses = 0)
    (hexp : ∃ t ∈ rest, t3 + BLE_GRACE_PERIOD_MS ≤ t) :
    BooleanPresenceDetector.getPresence d = true ∧
    (runMisses d (t1 :: t2 :: t3 :: rest)).2 = [false] ∧
    (runMisses d (t1 :: t2 :: t3 :: rest)).1.currentPresence = false ∧
    BooleanPresenceDetector.getPresence
      (runMisses d (t1 :: t2 :: t3 :: rest)).1 = false ∧
    ∃ j, 3 ≤ j ∧ j < 3 + rest.length ∧
      presenceTrace d (t1 :: t2 :: t3 :: rest) =
        List.replicate j true ++ List.replicate (3 + rest.length - j) false := by
  have e1 := missStep_count d t1 h1 (by omega)
  set dA : BooleanPresenceDetector :=
    { d with consecutiveMisses := d.consecutiveMisses + 1,
             consecutiveDetections := 0 } with hdA
  have e2 := missStep_count dA t2 (by simpa [hdA] using h1)
    (by simp [hdA] <;> omega)
  set dB : BooleanPresenceDetector :=
    { dA with consecutiveMisses := dA.consecutiveMisses + 1,
              consecutiveDetections := 0 } with hdB
  have e3 := missStep_start dB t3 (by simp [hdB, hdA, h1])
    (by simp [hdB, hdA, h2]) (by simp [hdB, hdA] <;> omega)
  set dC : BooleanPresenceDetector :=
    BooleanPresenceDetector.startGracePeriod
      { dB with consecutiveMisses := dB.consecutiveMisses + 1,
                consecutiveDetections := 0 } t3 with hdC
  have hgrace := graceRun rest dC
    (by simp [hdC, BooleanPresenceDetector.startGracePeriod, hdB, hdA, h1])
    (by simp [hdC, BooleanPresenceDetector.startGracePeriod])
    (by simp [hdC, BooleanPresenceDetector.startGracePeriod, hdB, hdA, h1])
    (by simp [hdC, BooleanPresenceDetector.startGracePeriod, hdB, hdA, h3])
    (by simpa [hdC, BooleanPresenceDetector.startGracePeriod] using hexp)
  obtain ⟨ha, hb, hc, j, hj, htr⟩ := hgrace
  have hpA : BooleanPresenceDetector.getPresence dA = true := by
    simp [BooleanPresenceDetector.getPresence, hdA, h1, h2]
  have hpB : BooleanPresenceDetector.getPresence dB = true := by
    simp [BooleanPresenceDetector.getPresence, hdB, hdA, h1, h2]
  have hpC : BooleanPresenceDetector.getPresence dC = true := by
    simp [BooleanPresenceDetector.getPresence, hdC,
          BooleanPresenceDetector.startGracePeriod, hdB, hdA, h1]
  refine ⟨by simp [BooleanPresenceDetector.getPresence, h1, h2], ?_, ?_, ?_, ?_⟩
  · simp [runMisses, e1, e2, e3, hc]
  · simpa [runMisses, e1, e2, e3] using ha
  · have hfin := (runMisses dC rest).1
    have : BooleanPresenceDetector.getPresence (runMisses dC rest).1 = false := by
      simp [BooleanPresenceDetector.getPresence, ha, hb]
    simpa [runMisses, e1, e2, e3] using this
  · refine ⟨j + 3, by omega, by omega, ?_⟩
    simp only [presenceTrace, e1, e2, e3, hpA, hpB, hpC, htr, List.length_cons]
    have hlen : 3 + rest.length - (j + 3) = rest.length - j := by omega
    simp [hlen, List.replicate_succ]

/-- Steady CONFIRMED_PRESENT detector state used as concrete input. -/
def presentDetector : BooleanPresenceDetector :=
  { currentPresence := true, lastKnownPresence := true }

/-- Witness for C4 at a concrete run: three misses starting at 8000 ms and a
final miss past the 60 s grace duration. -/
theorem C4_grace_expiry_witness :
    BooleanPresenceDetector.getPresence presentDetector = true ∧
    (runMisses presentDetector [8000, 16000, 24000, 32000, 84000]).2 = [false] ∧
    (runMisses presentDetector [8000, 16000, 24000, 32000, 84000]).1.currentPresence = false ∧
    BooleanPresenceDetector.getPresence
      (runMisses presentDetector [8000, 16000, 24000, 32000, 84000]).1 = false ∧
    ∃ j, 3 ≤ j ∧ j < 3 + [32000, 84000].length ∧
      presenceTrace presentDetector [8000, 16000, 24000, 32000, 84000] =
        List.replicate j true ++ List.replicate (3 + [32000, 84000].length - j) false :=
  C4_grace_expiry_single_transition presentDetector 8000 16000 24000 [32000, 84000]
    rfl rfl rfl ⟨84000, by simp, by decide⟩

/-- Counterexample to claim C6 as stated: on a fresh detector, a weak
detection (rssi -90, below the -80 floor) does not have the same effect as a
miss — it increments the detection counter and zeroes the miss counter,
while a miss does the opposite. -/
theorem C6_counterexample_weak_rssi :
    (BooleanPresenceDetector.checkBeacon {} true (-90) 5).1 ≠
      (BooleanPresenceDetector.checkBeacon {} false 0 5).1 ∧
    (BooleanPresenceDetector.checkBeacon {} true (-90) 5).1.consecutiveDetections = 1 ∧
    (BooleanPresenceDetector.checkBeacon {} true (-90) 5).1.consecutiveMisses = 0 ∧
    (BooleanPresenceDetector.checkBeacon {} false 0 5).1.consecutiveDetections = 0 ∧
    (BooleanPresenceDetector.checkBeacon {} false 0 5).1.consecutiveMisses = 1 := by
  decide

/-- Claim C6 (amended): a detection with rssi below the floor is ignored
rather than treated as a miss: it publishes nothing, leaves presence and all
grace-period state unchanged, but — unlike a miss — increments the
consecutive-detection counter, zeroes the consecutive-miss counter and
records the detection time. -/
theorem C6_weak_rssi_ignored (d : BooleanPresenceDetector) (rssi : Int)
    (now : Nat) (h1 : rssi ≠ 0) (h2 : rssi < BLE_SIGNAL_STRENGTH_THRESHOLD) :
    BooleanPresenceDetector.checkBeacon d true rssi now =
      ({ d with lastDetectionTime := now,
                consecutiveDetections := d.consecutiveDetections + 1,
                consecutiveMisses := 0 }, []) := by
  simp [BooleanPresenceDetector.checkBeacon, h1, h2]

/-- Witness for C6 (amended) at a concrete weak detection. -/
theorem C6_weak_rssi_witness :
    ((-90 : Int) ≠ 0) ∧ ((-90 : Int) < BLE_SIGNAL_STRENGTH_THRESHOLD) ∧
    BooleanPresenceDetector.checkBeacon presentDetector true (-90) 5 =
      ({ presentDetector with
          lastDetectionTime := 5,
          consecutiveDetections := presentDetector.consecutiveDetections + 1,
          consecutiveMisses := 0 }, []) :=
  ⟨by decide, by decide,
   C6_weak_rssi_ignored presentDetector (-90) 5 (by decide) (by decide)⟩

/-- Claim C10: while a grace period is active, each missed scan increments
the attempt counter; the grace period ends with the AWAY determination (one
status publish, presence reported false) as soon as the grace duration has
elapsed or the incremented attempt counter reaches
BLE_RECONNECT_MAX_ATTEMPTS, whichever comes first. -/
theorem C10_grace_attempt_cap (d : BooleanPresenceDetector) (t : Nat)
    (h1 : d.currentPresence = true) (h2 : d.inGracePeriod = true)
    (h3 : 2 ≤ d.consecutiveMisses) :
    ((t - d.gracePeriodStartTime < BLE_GRACE_PERIOD_MS ∧
      d.gracePeriodAttempts + 1 < BLE_RECONNECT_MAX_ATTEMPTS) →
      (missStep d t).1.gracePeriodAttempts = d.gracePeriodAttempts + 1 ∧
      (missStep d t).1.inGracePeriod = true ∧
      (missStep d t).1.currentPresence = true ∧
      (missStep d t).2 = []) ∧
    ((BLE_GRACE_PERIOD_MS ≤ t - d.gracePeriodStartTime ∨
      BLE_RECONNECT_MAX_ATTEMPTS ≤ d.gracePeriodAttempts + 1) →
      (missStep d t).1.inGracePeriod = false ∧
      (missStep d t).1.currentPresence = false ∧
      BooleanPresenceDetector.getPresence (missStep d t).1 = false ∧
      (missStep d t).2 = [false]) := by
  have hstep := missStep_grace d t h1 h2 (by omega)
  set d₁ : BooleanPresenceDetector :=
    { d with consecutiveMisses := d.consecutiveMisses + 1,
             consecutiveDetections := 0 } with hd₁
  constructor
  · rintro ⟨hc1, hc2⟩
    have hgp := updateGracePeriod_cont d₁ t (by simp [hd₁] <;> omega)
    rw [hstep, hgp]
    simp [hd₁, h1, h2]
  · intro hcap
    have hgp := updateGracePeriod_end d₁ t (by simpa [hd₁] using h1)
      (by simp [hd₁] <;> omega)
    simp [hstep, hgp, BooleanPresenceDetector.getPresence]

/-- Grace-period state eleven attempts in, used as concrete input. -/
def lateGraceDetector : BooleanPresenceDetector :=
  { currentPresence := true, lastKnownPresence := true,
    gracePeriodStartTime := 0, inGracePeriod := true,
    gracePeriodAttempts := 11, consecutiveMisses := 13 }

/-- Witness for C10: with eleven attempts already counted, a miss at 5000 ms
— well before the 60000 ms grace duration — hits the 12-attempt cap and
confirms AWAY early. -/
theorem C10_grace_attempt_cap_witness :
    (5000 - lateGraceDetector.gracePeriodStartTime < BLE_GRACE_PERIOD_MS) ∧
    (BLE_RECONNECT_MAX_ATTEMPTS ≤ lateGraceDetector.gracePeriodAttempts + 1) ∧
    ((missStep lateGraceDetector 5000).1.inGracePeriod = false ∧
     (missStep lateGraceDetector 5000).1.currentPresence = false ∧
     BooleanPresenceDetector.getPresence (missStep lateGraceDetector 5000).1 = false ∧
     (missStep lateGraceDetector 5000).2 = [false]) :=
  ⟨by decide, by decide,
   (C10_grace_attempt_cap lateGraceDetector 5000 rfl rfl (by decide)).2
     (Or.inr (by decide))⟩



/-- Counterexample to claim C7 as stated: from a fresh system (SEARCHING,
presence AWAY), two consecutive hit scans leave the mode at VERIFYING, not
MONITORING (getStatusString does already report "AVAILABLE"). -/
theorem C7_counterexample_two_hits :
    (scanStep (scanStep initSystem true 10000).1 true 12000).1.scanner.currentMode =
      ScanMode.VERIFYING ∧
    (scanStep (scanStep initSystem true 10000).1 true 12000).1.scanner.currentMode ≠
      ScanMode.MONITORING ∧
    BooleanPresenceDetector.getStatusString
      (scanStep (scanStep initSystem true 10000).1 true 12000).1.detector =
      "AVAILABLE" := by
  decide

/-- Claim C7 (amended): from a fresh system, two consecutive hit scans drive
the mode SEARCHING to VERIFYING and make getStatusString report "AVAILABLE";
a third hit scan more than PRESENCE_CONFIRM_TIME after the switch to
VERIFYING completes the transition to MONITORING. -/
theorem C7_two_hits_verifying_third_monitoring (t1 t2 t3 : Nat)
    (hdwell : t2 + PRESENCE_CONFIRM_TIME < t3) :
    (scanStep initSystem true t1).1.scanner.currentMode = ScanMode.SEARCHING ∧
    (scanStep (scanStep initSystem true t1).1 true t2).1.scanner.currentMode =
      ScanMode.VERIFYING ∧
    BooleanPresenceDetector.getStatusString
      (scanStep (scanStep initSystem true t1).1 true t2).1.detector = "AVAILABLE" ∧
    BooleanPresenceDetector.getPresence
      (scanStep (scanStep initSystem true t1).1 true t2).1.detector = true ∧
    (scanStep (scanStep (scanStep initSystem true t1).1 true t2).1 true t3).1.scanner.currentMode =
      ScanMode.MONITORING ∧
    BooleanPresenceDetector.getStatusString
      (scanStep (scanStep (scanStep initSystem true t1).1 true t2).1 true t3).1.detector =
      "AVAILABLE" := by
  have hgt : PRESENCE_CONFIRM_TIME < t3 - t2 := by
    simp only [PRESENCE_CONFIRM_TIME] at hdwell ⊢
    omega
  have e1 : (scanStep initSystem true t1).1 =
      ⟨{ currentMode := ScanMode.SEARCHING, lastScanTime := t1, modeChangeTime := 0,
         consecutiveDetections := 1, consecutiveMisses := 0 },
       { currentPresence := false, lastKnownPresence := false, lastDetectionTime := t1,
         lastStateChange := 0, gracePeriodStartTime := 0, inGracePeriod := false,
         gracePeriodAttempts := 0, consecutiveDetections := 1,
         consecutiveMisses := 0 }⟩ := rfl
  have e2 : (scanStep
      (⟨{ currentMode := ScanMode.SEARCHING, lastScanTime := t1, modeChangeTime := 0,
          consecutiveDetections := 1, consecutiveMisses := 0 },
        { currentPresence := false, lastKnownPresence := false, lastDetectionTime := t1,
          lastStateChange := 0, gracePeriodStartTime := 0, inGracePeriod := false,
          gracePeriodAttempts := 0, consecutiveDetections := 1,
          consecutiveMisses := 0 }⟩ : ScannerSystem) true t2).1 =
      ⟨{ currentMode := ScanMode.VERIFYING, lastScanTime := t2, modeChangeTime := t2,
         consecutiveDetections := 0, consecutiveMisses := 0 },
       { currentPresence := true, lastKnownPresence := false, lastDetectionTime := t2,
         lastStateChange := t2, gracePeriodStartTime := 0, inGracePeriod := false,
         gracePeriodAttempts := 0, consecutiveDetections := 0,
         consecutiveMisses := 0 }⟩ := rfl
  have e3 : (scanStep
      (⟨{ currentMode := ScanMode.VERIFYING, lastScanTime := t2, modeChangeTime := t2,
          consecutiveDetections := 0, consecutiveMisses := 0 },
        { currentPresence := true, lastKnownPresence := false, lastDetectionTime := t2,
          lastStateChange := t2, gracePeriodStartTime := 0, inGracePeriod := false,
          gracePeriodAttempts := 0, consecutiveDetections := 0,
          consecutiveMisses := 0 }⟩ : ScannerSystem) true t3).1 =
      ⟨{ currentMode := ScanMode.MONITORING, lastScanTime := t3, modeChangeTime := t3,
         consecutiveDetections := 0, consecutiveMisses := 0 },
       { currentPresence := true, lastKnownPresence := false, lastDetectionTime := t3,
         lastStateChange := t2, gracePeriodStartTime := 0, inGracePeriod := false,
         gracePeriodAttempts := 0, consecutiveDetections := 1,
         consecutiveMisses := 0 }⟩ := by
    simp [scanStep, updateScanMode, BooleanPresenceDetector.checkBeacon, hgt,
          CONFIRM_SCANS]
  rw [e1, e2, e3]
  exact ⟨rfl, rfl, rfl, rfl, rfl, rfl⟩

/-- Witness for C7 (amended) at concrete scan times 10000, 12000, 19000. -/
theorem C7_two_hits_witness :
    (scanStep initSystem true 10000).1.scanner.currentMode = ScanMode.SEARCHING ∧
    (scanStep (scanStep initSystem true 10000).1 true 12000).1.scanner.currentMode =
      ScanMode.VERIFYING ∧
    BooleanPresenceDetector.getStatusString
      (scanStep (scanStep initSystem true 10000).1 true 12000).1.detector = "AVAILABLE" ∧
    BooleanPresenceDetector.getPresence
      (scanStep (scanStep initSystem true 10000).1 true 12000).1.detector = true ∧
    (scanStep (scanStep (scanStep initSystem true 10000).1 true 12000).1 true 19000).1.scanner.currentMode =
      ScanMode.MONITORING ∧
    BooleanPresenceDetector.getStatusString
      (scanStep (scanStep (scanStep initSystem true 10000).1 true 12000).1 true 19000).1.detector =
      "AVAILABLE" :=
  C7_two_hits_verifying_third_monitoring 10000 12000 19000 (by decide)

/-- Claim C8: a faculty response is never handed to the publish path while
getPresence reports false, and every emitted payload carries the full field
set with faculty_present true, the correlating message id, the
physical_button response method and an ACKNOWLEDGE or BUSY response type
with its human-readable status string. -/
theorem C8_response_gated_by_presence (messageDisplayed : Bool)
    (currentMessage : String) (d : BooleanPresenceDetector) (cid : String)
    (now : Nat) :
    (BooleanPresenceDetector.getPresence d = false →
      handleAcknowledgeButton messageDisplayed currentMessage d cid now = none ∧
      handleBusyButton messageDisplayed currentMessage d cid now = none) ∧
    (∀ p : ResponsePayload,
      handleAcknowledgeButton messageDisplayed currentMessage d cid now = some p ∨
      handleBusyButton messageDisplayed currentMessage d cid now = some p →
      BooleanPresenceDetector.getPresence d = true ∧
      p.faculty_present = true ∧
      p.faculty_id = FACULTY_ID ∧
      p.faculty_name = FACULTY_NAME ∧
      p.message_id = cid ∧
      p.timestamp = now ∧
      p.response_method = "physical_button" ∧
      ((p.response_type = "ACKNOWLEDGE" ∧
        p.status = "Professor acknowledges the request and will respond accordingly") ∨
       (p.response_type = "BUSY" ∧
        p.status = "Professor is currently busy and cannot cater to this request"))) := by
  constructor
  · intro hp
    by_cases hmd : messageDisplayed = false ∨ currentMessage = ""
    · simp [handleAcknowledgeButton, handleBusyButton, hmd]
    · simp [handleAcknowledgeButton, handleBusyButton, hmd, hp]
  · intro p hsome
    by_cases hmd : messageDisplayed = false ∨ currentMessage = ""
    · simp [handleAcknowledgeButton, handleBusyButton, hmd] at hsome
    · by_cases hpres : BooleanPresenceDetector.getPresence d = false
      · simp [handleAcknowledgeButton, handleBusyButton, hmd, hpres] at hsome
      · by_cases hcid : cid = ""
        · simp [handleAcknowledgeButton, handleBusyButton, hmd, hpres, hcid] at hsome
        · have hpt : BooleanPresenceDetector.getPresence d = true := by
            revert hpres
            cases BooleanPresenceDetector.getPresence d <;> simp
          rcases hsome with h | h
          · simp [handleAcknowledgeButton, hmd, hpres, hcid] at h
            subst h
            exact ⟨hpt, rfl, rfl, rfl, rfl, rfl, rfl, Or.inl ⟨rfl, rfl⟩⟩
          · simp [handleBusyButton, hmd, hpres, hcid] at h
            subst h
            exact ⟨hpt, rfl, rfl, rfl, rfl, rfl, rfl, Or.inr ⟨rfl, rfl⟩⟩

/-- Payload emitted by the ACKNOWLEDGE handler in the C8 witness scenario. -/
def pW : ResponsePayload :=
  { faculty_id := FACULTY_ID, faculty_name := FACULTY_NAME,
    response_type := "ACKNOWLEDGE", message_id := "c1", timestamp := 9,
    faculty_present := true, response_method := "physical_button",
    status := "Professor acknowledges the request and will respond accordingly" }

/-- Witness for C8: with a displayed message, a present detector and a
consultation id, the ACKNOWLEDGE handler emits the full payload. -/
theorem C8_response_witness :
    BooleanPresenceDetector.getPresence presentDetector = true ∧
    pW.faculty_present = true ∧
    pW.faculty_id = FACULTY_ID ∧
    pW.faculty_name = FACULTY_NAME ∧
    pW.message_id = "c1" ∧
    pW.timestamp = 9 ∧
    pW.response_method = "physical_button" ∧
    ((pW.response_type = "ACKNOWLEDGE" ∧
      pW.status = "Professor acknowledges the request and will respond accordingly") ∨
     (pW.response_type = "BUSY" ∧
      pW.status = "Professor is currently busy and cannot cater to this request")) :=
  (C8_response_gated_by_presence true "hello" presentDetector "c1" 9).2
    pW (Or.inl rfl)

/-- Claim C9: an incoming consultation request whose id matches the
currently displayed consultation or any valid queue entry is ignored by the
message handler — the whole consultation state (queue, size, indices and
display globals) is unchanged. -/
theorem C9_duplicate_request_ignored (st : ConsultationState)
    (cid msg : String) (now : Nat)
    (hdup : (st.currentMessageDisplayed = true ∧ st.g_receivedConsultationId = cid) ∨
            ∃ e ∈ st.queue, e.isValid = true ∧ e.consultationId = cid) :
    onMqttConsultationRequest st cid msg now = st := by
  have hb : ((st.currentMessageDisplayed && (st.g_receivedConsultationId == cid)) ||
      st.queue.any (fun e => e.isValid && (e.consultationId == cid))) = true := by
    rcases hdup with ⟨h1, h2⟩ | ⟨e, he, hv, hc⟩
    · simp [h1, h2]
    · simp only [Bool.or_eq_true, List.any_eq_true]
      exact Or.inr ⟨e, he, by simp [hv, hc]⟩
  simp [onMqttConsultationRequest, hb]

/-- Consultation state holding one valid queued request with id c1. -/
def stW : ConsultationState :=
  { queue := [{ content := "hello", consultationId := "c1", timestamp := 0,
                isValid := true }],
    consultationQueueHead := 0, consultationQueueTail := 1,
    consultationQueueSize := 1, currentMessageDisplayed := false,
    currentMessage := "", messageDisplayed := false,
    g_receivedConsultationId := "" }

/-- Witness for C9: re-delivering id c1 leaves the state untouched. -/
theorem C9_duplicate_request_witness :
    onMqttConsultationRequest stW "c1" "again" 5 = stW :=
  C9_duplicate_request_ignored stW "c1" "again" 5
    (Or.inr ⟨⟨"hello", "c1", 0, true⟩, by simp [stW], rfl, rfl⟩)
